import Mathlib

set_option linter.unusedVariables false

/- Shallow embedding of the single source file of the repository, src/agent.py
   (an AI code-generation orchestration script).

   Modelling conventions:
   * Python strings are Lean `String`s; Python substring tests (`pat in s`)
     are `strContains`, defined by explicit list recursion.
   * The filesystem is an association list from full path names to file
     contents (`FS`).  `metadata.json` holds a structured `Metadata` record
     (the serialization of the Python dict that `json.dump` writes); the
     other files hold plain text.
   * The remote chat-completion client is an oracle
     `Request → Except String String`; a returned `.error e` models a raised
     exception with message `e`.  Every request issued is recorded in a
     trace, so theorems can speak about which network calls were made.
   * `datetime.now().isoformat()` is modelled by a clock function
     `now : Nat → String` together with a tick counter threaded through the
     run; each call to `now` consumes one tick.
   * Temperatures (floats 0.5 / 0.7 / 0.3 in the source) are stored in
     tenths as naturals (5 / 7 / 3) to stay within exact arithmetic. -/

/-- Does the pattern occur at the head of the character list? -/
def startsWithChars : List Char → List Char → Bool
  | [], _ => true
  | _ :: _, [] => false
  | p :: ps, c :: cs => p == c && startsWithChars ps cs

/-- Does the pattern occur anywhere in the character list? -/
def occursAnywhere (pat : List Char) : List Char → Bool
  | [] => startsWithChars pat []
  | c :: cs => startsWithChars pat (c :: cs) || occursAnywhere pat cs

/-- Python substring test: `pat in s`. -/
def strContains (s pat : String) : Bool := occursAnywhere pat.toList s.toList

/-- Python str.lower (ASCII case folding, which is all the heuristics use). -/
def lowerStr (s : String) : String := String.mk (s.toList.map Char.toLower)

/-- The record that save_generated_code dumps into metadata.json. -/
structure Metadata where
  topic : String
  language : String
  generated_at : String
  files : List String
  deriving DecidableEq, Repr

/-- Content of a file in the modelled output directory. -/
inductive FData where
  | text : String → FData
  | json : Metadata → FData
  deriving DecidableEq, Repr

/-- The filesystem: an association list from full path names to contents. -/
abbrev FS : Type := List (String × FData)

/-- Look a path up in the filesystem (first match wins). -/
def fsLookup (fs : FS) (name : String) : Option FData :=
  match fs with
  | [] => none
  | p :: rest => if p.1 == name then some p.2 else fsLookup rest name

/-- Does a file with this path exist? -/
def fsHas (fs : FS) (name : String) : Bool := (fsLookup fs name).isSome

/-- Overwrite-or-create a file (Python `open(path, "w")` then write). -/
def fsWrite (fs : FS) (name : String) (v : FData) : FS :=
  match fs with
  | [] => [(name, v)]
  | p :: rest => if p.1 == name then (name, v) :: rest else p :: fsWrite rest name v

/-- Is `name` a direct child of directory `dir` (what `dir.glob("*")` lists)? -/
def isDirectChild (dir name : String) : Bool :=
  startsWithChars (dir ++ "/").toList name.toList
    && (name.toList.drop (dir ++ "/").toList.length).all (fun c => !(c == '/'))

/-- Python `list(output_dir.glob("*"))`: every direct child of the directory. -/
def fsGlob (fs : FS) (dir : String) : List String :=
  (fs.filter (fun p => isDirectChild dir p.1)).map (fun p => p.1)

/-- One chat-completion request (model name, prompt, temperature in tenths,
max_tokens), as issued by client.chat.completions.create. -/
structure Request where
  model : String
  prompt : String
  temperatureTenths : Nat
  maxTokens : Nat
  deriving DecidableEq, Repr

/-- The remote completion endpoint: returns the response text, or an
exception message. -/
abbrev Oracle : Type := Request → Except String String

/-- Mutable agent state threaded through one run: the log buffer, the clock
tick counter, the trace of issued requests, and the filesystem. -/
structure AgState where
  logs : List String
  clock : Nat
  trace : List Request
  fs : FS

/-- AICodeAgent.log: append a timestamped line to the log buffer. -/
def logMsg (now : Nat → String) (st : AgState) (level msg : String) : AgState :=
  { st with
    logs := st.logs ++ ["[" ++ now st.clock ++ "] [" ++ level ++ "] " ++ msg]
    clock := st.clock + 1 }

/-- The stage-1 prompt template of reasoning_step. -/
def reasoning_prompt (topic : String) : String :=
  "Analyze this topic and provide structured reasoning:\n\nTopic: " ++ topic ++
  "\n\nProvide:\n1. Language (Python/JavaScript/Bash/etc)\n2. Core Features (3-5 key features needed)\n3. Architecture (modular approach)\n4. Dependencies (key libraries)\n5. Scope (full app or minimal demo)\n6. Creative opportunities (optional features to make it better)\n\nFormat as JSON."

/-- The stage-2 prompt template of generate_code_step. -/
def generation_prompt (topic reasoning : String) : String :=
  "Based on this topic and reasoning, generate complete, production-ready code:\n\nTopic: " ++ topic ++
  "\n\nReasoning/Analysis:\n" ++ reasoning ++
  "\n\nRequirements:\n- Complete, working code (not snippets)\n- Best practices and error handling\n- Well-commented and modular\n- Include setup/run instructions in docstring\n- Use popular, stable libraries only\n- Make it creative where appropriate\n\nGenerate the full code. Include:\n1. Main script/entry point\n2. Helper functions/modules if needed\n3. Comments on architecture\n4. Error handling throughout\n\nOutput ONLY the code, ready to run."

/-- The stage-3 prompt template of generate_requirements; it interpolates
code[:500], the first (at most) 500 characters of the generated code. -/
def req_prompt (topic code : String) : String :=
  "Given this topic and code, what Python packages are needed?\n\nTopic: " ++ topic ++
  "\n\nCode snippet:\n" ++ code.take 500 ++
  "...\n\nList ONLY package names and versions (one per line), like:\nrequests==2.28.1\nnumpy==1.23.0\n\nIf no external packages needed, return: # No external dependencies"

/-- The stage-1 request (temperature 0.5, max_tokens 1000). -/
def reasoning_request (topic : String) : Request :=
  { model := "gpt-4o", prompt := reasoning_prompt topic, temperatureTenths := 5, maxTokens := 1000 }

/-- The stage-2 request (temperature 0.7, max_tokens 4000). -/
def generation_request (topic reasoning : String) : Request :=
  { model := "gpt-4o", prompt := generation_prompt topic reasoning, temperatureTenths := 7, maxTokens := 4000 }

/-- The stage-3 request (temperature 0.3, max_tokens 500). -/
def requirements_request (topic code : String) : Request :=
  { model := "gpt-4o", prompt := req_prompt topic code, temperatureTenths := 3, maxTokens := 500 }

/-- The language-detection branch of save_generated_code (src/agent.py lines
146-151): returns the main file path and the language string. -/
def detect_language (code : String) : String × String :=
  if strContains code "import" &&
      (strContains code "import os" || strContains code "import sys" || strContains code "def ") then
    ("generated-code/main.py", "python")
  else
    ("generated-code/main.js", "javascript")

/-- AICodeAgent.save_generated_code: write the main file, optionally
requirements.txt (only when the requirements text is truthy and the detected
language is "python"), then metadata.json; return the output directory.
The output directory is the fixed path "generated-code". -/
def save_generated_code (topic code : String) (requirements : Option String)
    (now : Nat → String) (st : AgState) : String × AgState :=
  let output_dir := "generated-code"
  let d := detect_language code
  let main_file := d.1
  let language := d.2
  let st := { st with fs := fsWrite st.fs main_file (FData.text code) }
  let st := logMsg now st "OBSERVE" ("Saved code to " ++ main_file)
  let st :=
    if (match requirements with | some r => !(r == "") | none => false) && language == "python" then
      let req_file := output_dir ++ "/requirements.txt"
      let st := { st with fs := fsWrite st.fs req_file (FData.text (requirements.getD "")) }
      logMsg now st "OBSERVE" ("Saved requirements to " ++ req_file)
    else st
  let metadata : Metadata :=
    { topic := topic, language := language, generated_at := now st.clock, files := [main_file] }
  let st := { st with clock := st.clock + 1 }
  let st := { st with fs := fsWrite st.fs (output_dir ++ "/metadata.json") (FData.json metadata) }
  (output_dir, st)

/-- Result dictionary returned by AICodeAgent.generate_full. -/
inductive RunResult where
  | success : (output_dir : String) → (logs : String) → (files : List String) → RunResult
  | error : (err : String) → (logs : String) → RunResult
  deriving DecidableEq, Repr

/-- Is the result the success dictionary? (result["status"] == "success") -/
def RunResult.isSuccess : RunResult → Bool
  | .success _ _ _ => true
  | .error _ _ => false

/-- AICodeAgent.generate_full: the three-stage pipeline.  Any oracle error
short-circuits to the error result; the writer runs only after all stages
completed. -/
def generate_full (oracle : Oracle) (topic : String) (now : Nat → String)
    (st : AgState) : RunResult × AgState :=
  let st := logMsg now st "START" ("Generating code for topic: " ++ topic)
  let st := logMsg now st "SENSE" ("Reading topic: " ++ topic)
  let st := { st with trace := st.trace ++ [reasoning_request topic] }
  match oracle (reasoning_request topic) with
  | .error e =>
    let st := logMsg now st "ERROR" e
    (RunResult.error e (String.intercalate "\n" st.logs), st)
  | .ok reasoning =>
    let st := logMsg now st "REASON" ("Analysis complete:\n" ++ reasoning)
    let st := logMsg now st "ACT-GENERATE" "Starting code generation..."
    let st := { st with trace := st.trace ++ [generation_request topic reasoning] }
    match oracle (generation_request topic reasoning) with
    | .error e =>
      let st := logMsg now st "ERROR" e
      (RunResult.error e (String.intercalate "\n" st.logs), st)
    | .ok code =>
      let st := logMsg now st "ACT-GENERATE" ("Generated code (" ++ toString code.length ++ " chars)")
      let finish := fun (requirements : Option String) (st : AgState) =>
        let p := save_generated_code topic code requirements now st
        let st := p.2
        let st := logMsg now st "SUCCESS" ("Generated code saved to " ++ p.1)
        ((RunResult.success p.1 (String.intercalate "\n" st.logs) (fsGlob st.fs p.1)), st)
      if strContains (lowerStr reasoning) "python" then
        let st := { st with trace := st.trace ++ [requirements_request topic code] }
        match oracle (requirements_request topic code) with
        | .error e =>
          let st := logMsg now st "ERROR" e
          (RunResult.error e (String.intercalate "\n" st.logs), st)
        | .ok requirements =>
          let st := logMsg now st "ACT-GENERATE" "Generated requirements"
          finish (some requirements) st
      else
        finish none st

/-- AICodeAgent.__init__: resolve the credential (explicit override, falling
back to the GITHUB_MODEL_API_KEY environment variable, with Python
truthiness: an empty override also falls back, an empty or absent resolved
key raises ValueError).  No completion request is issued here: the
constructor does not take the oracle at all. -/
def agentInit (apiKeyArg : Option String) (envKey : Option String) : Except String String :=
  let key := match apiKeyArg with
    | some s => if s == "" then envKey else some s
    | none => envKey
  match key with
  | none => Except.error "GITHUB_MODEL_API_KEY environment variable not set. Set it to your GitHub Models API key."
  | some s =>
    if s == "" then
      Except.error "GITHUB_MODEL_API_KEY environment variable not set. Set it to your GitHub Models API key."
    else
      Except.ok s

/-- The main CLI entry point: parse arguments (topic, --api-key, --output
with default "generated-code"), construct the agent, run generate_full,
return the exit code.  The outputArg is parsed but never threaded into the
writer, exactly as in the source.  Returns (exit code, final filesystem,
trace of completion requests issued). -/
def mainRun (topic : String) (apiKeyArg : Option String) (outputArg : String)
    (envKey : Option String) (oracle : Oracle) (now : Nat → String)
    (fs0 : FS) : Nat × FS × List Request :=
  match agentInit apiKeyArg envKey with
  | .error _ => (1, fs0, [])
  | .ok _ =>
    let st0 : AgState := { logs := [], clock := 0, trace := [], fs := fs0 }
    let p := generate_full oracle topic now st0
    (if p.1.isSuccess then 0 else 1, p.2.fs, p.2.trace)

/-- The files list recorded inside metadata.json, when that file exists and
holds a metadata record. -/
def metadataFilesAt (fs : FS) : Option (List String) :=
  match fsLookup fs "generated-code/metadata.json" with
  | some (FData.json md) => some md.files
  | _ => none

/-- The files list carried by a success result (empty for an error result). -/
def RunResult.filesOf : RunResult → List String
  | .success _ _ files => files
  | .error _ _ => []

theorem fsLookup_fsWrite_self (fs : FS) (n : String) (v : FData) :
    fsLookup (fsWrite fs n v) n = some v := by
  induction fs with
  | nil => simp [fsWrite, fsLookup]
  | cons p rest ih =>
    by_cases h : p.1 == n
    · simp [fsWrite, fsLookup, h]
    · simp [fsWrite, fsLookup, h, ih]

theorem fsLookup_fsWrite_ne (fs : FS) (n m : String) (v : FData) (h : ¬ m = n) :
    fsLookup (fsWrite fs n v) m = fsLookup fs m := by
  induction fs with
  | nil => simp [fsWrite, fsLookup, Ne.symm h]
  | cons p rest ih =>
    by_cases hp : p.1 == n
    · have hpn : p.1 = n := by simpa using hp
      simp [fsWrite, fsLookup, hp, hpn, h, Ne.symm h]
    · simp [fsWrite, fsLookup, hp, ih]

theorem fsHas_fsWrite (fs : FS) (n m : String) (v : FData) :
    fsHas (fsWrite fs n v) m = (m == n || fsHas fs m) := by
  by_cases h : m = n
  · subst h
    simp [fsHas, fsLookup_fsWrite_self]
  · simp [fsHas, fsLookup_fsWrite_ne fs n m v h, h]

theorem fsHas_iff_exists (fs : FS) (x : String) :
    fsHas fs x = true ↔ ∃ v, (x, v) ∈ fs := by
  induction fs with
  | nil => simp [fsHas, fsLookup]
  | cons p rest ih =>
    by_cases h : p.1 == x
    · have hx : p.1 = x := by simpa using h
      constructor
      · intro _
        exact ⟨p.2, by simp [← hx]⟩
      · intro _
        simp [fsHas, fsLookup, h]
    · have hx : ¬ p.1 = x := by simpa using h
      constructor
      · intro hh
        have : fsHas rest x = true := by simpa [fsHas, fsLookup, h] using hh
        obtain ⟨v, hv⟩ := ih.mp this
        exact ⟨v, by simp [hv]⟩
      · intro ⟨v, hv⟩
        rcases List.mem_cons.mp hv with heq | hmem
        · exact absurd (congrArg Prod.fst heq).symm hx
        · simpa [fsHas, fsLookup, h] using ih.mpr ⟨v, hmem⟩

theorem mem_fsGlob (fs : FS) (dir x : String) :
    x ∈ fsGlob fs dir ↔ (isDirectChild dir x = true ∧ fsHas fs x = true) := by
  rw [fsHas_iff_exists]
  constructor
  · intro hx
    obtain ⟨p, hp, hpx⟩ := List.mem_map.mp hx
    obtain ⟨hmem, hchild⟩ := List.mem_filter.mp hp
    subst hpx
    exact ⟨hchild, ⟨p.2, hmem⟩⟩
  · intro ⟨hchild, v, hmem⟩
    exact List.mem_map.mpr ⟨(x, v), List.mem_filter.mpr ⟨hmem, hchild⟩, rfl⟩

theorem startsWithChars_append (pat rest : List Char) :
    startsWithChars pat (pat ++ rest) = true := by
  induction pat with
  | nil => rfl
  | cons a as ih => simp [startsWithChars, ih]

theorem occursAnywhere_of_startsWithChars (pat l : List Char)
    (h : startsWithChars pat l = true) : occursAnywhere pat l = true := by
  cases l with
  | nil => simpa [occursAnywhere] using h
  | cons c cs => simp [occursAnywhere, h]

theorem occursAnywhere_append_left (pat pre l : List Char)
    (h : occursAnywhere pat l = true) : occursAnywhere pat (pre ++ l) = true := by
  induction pre with
  | nil => simpa using h
  | cons c cs ih => simp [occursAnywhere, ih]

theorem strContains_middle (pre mid post : String) :
    strContains (pre ++ mid ++ post) mid = true := by
  unfold strContains
  have hsplit : (pre ++ mid ++ post).toList = pre.toList ++ (mid.toList ++ post.toList) := by
    simp [String.toList, String.data_append]
  rw [hsplit]
  exact occursAnywhere_append_left _ _ _
    (occursAnywhere_of_startsWithChars _ _ (startsWithChars_append _ _))

/-- C4: the saver classifies the code text as the Python branch (main.py,
language "python") exactly when the text contains the substring "import" and
also one of "import os", "import sys", "def "; in every other case it takes
the JavaScript branch (main.js, language "javascript"). -/
theorem C4_language_classification (code : String) :
    (detect_language code = ("generated-code/main.py", "python") ↔
      (strContains code "import" &&
        (strContains code "import os" || strContains code "import sys" ||
          strContains code "def ")) = true) ∧
    (detect_language code = ("generated-code/main.js", "javascript") ↔
      ¬ (strContains code "import" &&
        (strContains code "import os" || strContains code "import sys" ||
          strContains code "def ")) = true) := by
  unfold detect_language
  split <;> simp_all

/-- C5: language detection is a pure function of the code text (identical
inputs give identical classifications); a text containing "def main():" and
"import sys" classifies as the Python branch, and a text with neither
heuristic substring classifies as the JavaScript branch. -/
theorem C5_detection_deterministic :
    (∀ c1 c2 : String, c1 = c2 → detect_language c1 = detect_language c2) ∧
    detect_language "import sys\n\ndef main():\n    print(0)\n" =
      ("generated-code/main.py", "python") ∧
    detect_language "console.log(1);" = ("generated-code/main.js", "javascript") :=
  ⟨fun c1 c2 h => by rw [h], rfl, rfl⟩

theorem C5_detection_deterministic_witness :
    detect_language "import sys" = detect_language "import sys" :=
  C5_detection_deterministic.1 "import sys" "import sys" rfl

/-- C3: the --output override is parsed but never threaded into the writer:
save_generated_code always returns the fixed directory "generated-code", and
two mainRun invocations differing only in the output argument are equal. -/
theorem C3_output_override_ignored :
    (∀ topic code requirements now st,
      (save_generated_code topic code requirements now st).1 = "generated-code") ∧
    (∀ topic apiKeyArg o1 o2 envKey oracle now fs0,
      mainRun topic apiKeyArg o1 envKey oracle now fs0 =
        mainRun topic apiKeyArg o2 envKey oracle now fs0) :=
  ⟨fun _ _ _ _ _ => rfl, fun _ _ _ _ _ _ _ _ => rfl⟩

/-- C6: with no explicit api_key override and the credential environment
variable unset, construction fails with the ValueError message, and the whole
entry point exits with code 1 having issued no completion request (empty
trace) and touched no files. -/
theorem C6_missing_credential_fails :
    agentInit none none =
      Except.error "GITHUB_MODEL_API_KEY environment variable not set. Set it to your GitHub Models API key." ∧
    (∀ topic outputArg oracle now fs0,
      mainRun topic none outputArg none oracle now fs0 = (1, fs0, [])) :=
  ⟨rfl, fun _ _ _ _ _ => rfl⟩

/-- C7: if stage 1 succeeds and stage 2 raises, the filesystem is untouched
(no output files written), the result is the error dictionary carrying the
exception message and the accumulated log buffer, and the entry point exits
with code 1. -/
theorem C7_stage2_failure (oracle : Oracle) (topic : String) (now : Nat → String)
    (st0 : AgState) (r e k outputArg : String) (envKey : Option String)
    (h1 : oracle (reasoning_request topic) = Except.ok r)
    (h2 : oracle (generation_request topic r) = Except.error e)
    (hk : ¬ k = "") :
    (generate_full oracle topic now st0).2.fs = st0.fs ∧
    (generate_full oracle topic now st0).1 =
      RunResult.error e (String.intercalate "\n" (generate_full oracle topic now st0).2.logs) ∧
    (mainRun topic (some k) outputArg envKey oracle now st0.fs).1 = 1 := by
  have hb : (k == "") = false := by simpa using hk
  refine ⟨?_, ?_, ?_⟩ <;>
    simp [generate_full, mainRun, agentInit, logMsg, h1, h2, hb, RunResult.isSuccess]

/-- A constant clock for concrete runs. -/
def nowT : Nat → String := fun _ => "T"

/-- A fresh agent state over an empty filesystem. -/
def stEmpty : AgState := { logs := [], clock := 0, trace := [], fs := [] }

/-- Oracle whose stage 1 succeeds and stage 2 raises. -/
def oracleFail2 : Oracle := fun req =>
  if req.temperatureTenths == 5 then Except.ok "r" else Except.error "boom"

/-- Oracle for a run whose reasoning mentions Python and whose code is
classified as Python. -/
def oraclePyRun : Oracle := fun req =>
  if req.temperatureTenths == 5 then Except.ok "Use Python here"
  else if req.temperatureTenths == 7 then Except.ok "import os\n\ndef main():\n    return 0\n"
  else Except.ok "requests==2.28.1"

/-- Oracle for a run whose reasoning mentions Python but whose code is
classified as JavaScript. -/
def oracleJsRun : Oracle := fun req =>
  if req.temperatureTenths == 5 then Except.ok "Use Python here"
  else if req.temperatureTenths == 7 then Except.ok "console.log(1);"
  else Except.ok "requests==2.28.1"

theorem C7_stage2_failure_witness :
    (generate_full oracleFail2 "t" nowT stEmpty).2.fs = stEmpty.fs ∧
    (generate_full oracleFail2 "t" nowT stEmpty).1 =
      RunResult.error "boom"
        (String.intercalate "\n" (generate_full oracleFail2 "t" nowT stEmpty).2.logs) ∧
    (mainRun "t" (some "k") "out" none oracleFail2 nowT stEmpty.fs).1 = 1 :=
  C7_stage2_failure oracleFail2 "t" nowT stEmpty "r" "boom" "k" "out" none rfl rfl (by decide)

/-- C1 counterexample: a successful run that writes main.py, requirements.txt
and metadata.json into an initially empty directory, while the metadata files
list names only main.py. -/
theorem C1_counterexample_files_list :
    (generate_full oraclePyRun "t" nowT stEmpty).1.isSuccess = true ∧
    fsHas (generate_full oraclePyRun "t" nowT stEmpty).2.fs
      "generated-code/requirements.txt" = true ∧
    fsHas (generate_full oraclePyRun "t" nowT stEmpty).2.fs
      "generated-code/metadata.json" = true ∧
    metadataFilesAt (generate_full oraclePyRun "t" nowT stEmpty).2.fs =
      some ["generated-code/main.py"] :=
  ⟨rfl, rfl, rfl, rfl⟩

/-- C1 amended: on every successful run the files list recorded inside
metadata.json is exactly the one-element list holding the main source file
path, whatever else was written. -/
theorem C1_amended_metadata_files (oracle : Oracle) (topic : String)
    (now : Nat → String) (st0 : AgState) (r c q : String)
    (h1 : oracle (reasoning_request topic) = Except.ok r)
    (h2 : oracle (generation_request topic r) = Except.ok c)
    (h3 : oracle (requirements_request topic c) = Except.ok q) :
    (generate_full oracle topic now st0).1.isSuccess = true ∧
    metadataFilesAt (generate_full oracle topic now st0).2.fs =
      some [(detect_language c).1] := by
  by_cases hpy : strContains (lowerStr r) "python" <;>
    refine ⟨?_, ?_⟩ <;>
      simp [generate_full, metadataFilesAt, save_generated_code, logMsg, h1, h2, h3, hpy,
        RunResult.isSuccess, fsLookup_fsWrite_self]

theorem C1_amended_metadata_files_witness :
    (generate_full oraclePyRun "t" nowT stEmpty).1.isSuccess = true ∧
    metadataFilesAt (generate_full oraclePyRun "t" nowT stEmpty).2.fs =
      some [(detect_language "import os\n\ndef main():\n    return 0\n").1] :=
  C1_amended_metadata_files oraclePyRun "t" nowT stEmpty
    "Use Python here" "import os\n\ndef main():\n    return 0\n" "requests==2.28.1"
    rfl rfl rfl

/-- C2 counterexample: a successful run whose stage-1 reasoning contains
"python" (case-insensitively) but which writes no requirements.txt, because
the generated code is classified as JavaScript. -/
theorem C2_counterexample_manifest :
    (generate_full oracleJsRun "t" nowT stEmpty).1.isSuccess = true ∧
    oracleJsRun (reasoning_request "t") = Except.ok "Use Python here" ∧
    strContains (lowerStr "Use Python here") "python" = true ∧
    fsHas (generate_full oracleJsRun "t" nowT stEmpty).2.fs
      "generated-code/requirements.txt" = false :=
  ⟨rfl, rfl, rfl, rfl⟩

/-- C2 amended: on a successful run over a directory holding no prior
requirements.txt, the manifest exists afterwards iff the reasoning matched the
Python heuristic AND the returned requirements text is non-empty AND the
detected language of the generated code is "python". -/
theorem C2_amended_manifest_condition (oracle : Oracle) (topic : String)
    (now : Nat → String) (st0 : AgState) (r c q : String)
    (h1 : oracle (reasoning_request topic) = Except.ok r)
    (h2 : oracle (generation_request topic r) = Except.ok c)
    (h3 : oracle (requirements_request topic c) = Except.ok q)
    (hfresh : fsHas st0.fs "generated-code/requirements.txt" = false) :
    fsHas (generate_full oracle topic now st0).2.fs "generated-code/requirements.txt" =
      (strContains (lowerStr r) "python" &&
        (!(q == "") && ((detect_language c).2 == "python"))) := by
  by_cases hpy : strContains (lowerStr r) "python" <;>
  by_cases hd : (strContains c "import" &&
      (strContains c "import os" || strContains c "import sys" || strContains c "def ")) <;>
  by_cases hq : q == "" <;>
    simp [generate_full, save_generated_code, detect_language, logMsg, h1, h2, h3,
      hpy, hd, hq, hfresh, fsHas_fsWrite]

theorem C2_amended_manifest_condition_witness :
    fsHas (generate_full oracleJsRun "t" nowT stEmpty).2.fs
      "generated-code/requirements.txt" =
      (strContains (lowerStr "Use Python here") "python" &&
        (!("requests==2.28.1" == "") && ((detect_language "console.log(1);").2 == "python"))) :=
  C2_amended_manifest_condition oracleJsRun "t" nowT stEmpty
    "Use Python here" "console.log(1);" "requests==2.28.1" rfl rfl rfl rfl

/-- C10: the saver writes requirements.txt exactly when the requirements
value is a non-empty string (Python truthiness) and the detected language is
"python"; in particular an empty requirements string produces no manifest. -/
theorem C10_truthy_requirements (topic code : String) (q : Option String)
    (now : Nat → String) (st : AgState)
    (hfresh : fsHas st.fs "generated-code/requirements.txt" = false) :
    fsHas (save_generated_code topic code q now st).2.fs "generated-code/requirements.txt" =
      ((match q with | some r => !(r == "") | none => false) &&
        ((detect_language code).2 == "python")) := by
  by_cases hd : (strContains code "import" &&
      (strContains code "import os" || strContains code "import sys" || strContains code "def ")) <;>
  cases q with
  | none =>
    simp [save_generated_code, detect_language, logMsg, hd, hfresh, fsHas_fsWrite]
  | some s =>
    by_cases hs : s == "" <;>
      simp [save_generated_code, detect_language, logMsg, hd, hs, hfresh, fsHas_fsWrite]

theorem C10_truthy_requirements_witness :
    fsHas (save_generated_code "t" "import os\ndef f():\n    return 0\n" (some "") nowT stEmpty).2.fs
      "generated-code/requirements.txt" = false :=
  C10_truthy_requirements "t" "import os\ndef f():\n    return 0\n" (some "") nowT stEmpty rfl

/-- C8: the dependency-inference request is issued exactly when the stage-1
reasoning contains "python" case-insensitively; that request carries
temperature 0.3 (three tenths) and a 500-token cap, and its prompt contains
the first 500 characters of the generated code. -/
theorem C8_dependency_stage (oracle : Oracle) (topic : String)
    (now : Nat → String) (st0 : AgState) (r c q : String)
    (h1 : oracle (reasoning_request topic) = Except.ok r)
    (h2 : oracle (generation_request topic r) = Except.ok c)
    (h3 : oracle (requirements_request topic c) = Except.ok q) :
    (generate_full oracle topic now st0).2.trace =
      st0.trace ++ [reasoning_request topic, generation_request topic r] ++
        (if strContains (lowerStr r) "python" then [requirements_request topic c] else []) ∧
    requirements_request topic c =
      { model := "gpt-4o", prompt := req_prompt topic c,
        temperatureTenths := 3, maxTokens := 500 } ∧
    strContains (req_prompt topic c) (c.take 500) = true := by
  refine ⟨?_, rfl, ?_⟩
  · by_cases hpy : strContains (lowerStr r) "python" <;>
      simp [generate_full, save_generated_code, logMsg, h1, h2, h3, hpy,
        apply_ite AgState.trace]
  · exact strContains_middle
      ("Given this topic and code, what Python packages are needed?\n\nTopic: " ++ topic ++
        "\n\nCode snippet:\n")
      (c.take 500)
      "...\n\nList ONLY package names and versions (one per line), like:\nrequests==2.28.1\nnumpy==1.23.0\n\nIf no external packages needed, return: # No external dependencies"

theorem C8_dependency_stage_witness :
    (generate_full oraclePyRun "t" nowT stEmpty).2.trace =
      stEmpty.trace ++ [reasoning_request "t",
        generation_request "t" "Use Python here"] ++
        (if strContains (lowerStr "Use Python here") "python" then
          [requirements_request "t" "import os\n\ndef main():\n    return 0\n"] else []) ∧
    requirements_request "t" "import os\n\ndef main():\n    return 0\n" =
      { model := "gpt-4o",
        prompt := req_prompt "t" "import os\n\ndef main():\n    return 0\n",
        temperatureTenths := 3, maxTokens := 500 } ∧
    strContains (req_prompt "t" "import os\n\ndef main():\n    return 0\n")
      (String.take "import os\n\ndef main():\n    return 0\n" 500) = true :=
  C8_dependency_stage oraclePyRun "t" nowT stEmpty
    "Use Python here" "import os\n\ndef main():\n    return 0\n" "requests==2.28.1"
    rfl rfl rfl

/-- C9: on a successful run the files field of the result is the glob of every
entry of the output directory after the writes: it contains metadata.json and
also any file already present in that directory before the run. -/
theorem C9_result_files_globbed (oracle : Oracle) (topic : String)
    (now : Nat → String) (st0 : AgState) (r c q n : String)
    (h1 : oracle (reasoning_request topic) = Except.ok r)
    (h2 : oracle (generation_request topic r) = Except.ok c)
    (h3 : oracle (requirements_request topic c) = Except.ok q)
    (hn1 : isDirectChild "generated-code" n = true)
    (hn2 : fsHas st0.fs n = true) :
    (generate_full oracle topic now st0).1.isSuccess = true ∧
    (generate_full oracle topic now st0).1.filesOf =
      fsGlob (generate_full oracle topic now st0).2.fs "generated-code" ∧
    "generated-code/metadata.json" ∈ (generate_full oracle topic now st0).1.filesOf ∧
    n ∈ (generate_full oracle topic now st0).1.filesOf := by
  have hmetachild : isDirectChild "generated-code" "generated-code/metadata.json" = true := by
    decide
  by_cases hpy : strContains (lowerStr r) "python" <;>
    refine ⟨?_, ?_, ?_, ?_⟩ <;>
      simp [generate_full, save_generated_code, logMsg, h1, h2, h3, hpy,
        RunResult.isSuccess, RunResult.filesOf, mem_fsGlob, fsHas_fsWrite,
        hmetachild, hn1, hn2, apply_ite AgState.fs,
        apply_ite (fun fs : FS => fsHas fs n)]

/-- A prior-run leftover file sitting in the output directory. -/
def stOld : AgState :=
  { logs := [], clock := 0, trace := [], fs := [("generated-code/old.txt", FData.text "x")] }

theorem C9_result_files_globbed_witness :
    (generate_full oraclePyRun "t" nowT stOld).1.isSuccess = true ∧
    (generate_full oraclePyRun "t" nowT stOld).1.filesOf =
      fsGlob (generate_full oraclePyRun "t" nowT stOld).2.fs "generated-code" ∧
    "generated-code/metadata.json" ∈ (generate_full oraclePyRun "t" nowT stOld).1.filesOf ∧
    "generated-code/old.txt" ∈ (generate_full oraclePyRun "t" nowT stOld).1.filesOf :=
  C9_result_files_globbed oraclePyRun "t" nowT stOld
    "Use Python here" "import os\n\ndef main():\n    return 0\n" "requests==2.28.1"
    "generated-code/old.txt" rfl rfl rfl (by decide) rfl
